import Mathlib

/-!
Shallow embedding of `src/timer.js` (classes `Timer` and `TimerManager`) and
proofs about it.

Modelling conventions:
* JavaScript `Date` values are modelled as `Int` milliseconds since the epoch.
* JavaScript numbers used as second counts (`intervalSeconds`, `maxSeconds`,
  `elapsedSeconds`) are modelled as `Int`; `maxSeconds` is `Option Int`
  (`none` models `null`).
* The external callables `action` (async, awaited) and `tickAction`
  (synchronous observer `(timer) => void`) are opaque collaborators; they are
  not part of the timer's own state and are abstracted away.  The boolean
  result of `action` is unused by the core.  What the core itself does around
  an action invocation is kept: `executeAction` performs the synchronous
  prefix of the JS async method (everything up to and including launching the
  action: counter increment, guard test, setting `isActionRunning` and
  `lastExecutionDate`) and reports whether the action was fired;
  `finishAction` is the continuation that runs when the awaited action
  resolves (clear the running guard, deactivate when complete).
* Division by 1000 (milliseconds to seconds) and the fractional tolerance
  0.4 are modelled exactly over `ℚ`.
-/

namespace NewTimer

/-- Embedding of the state of class `Timer` (src/timer.js lines 40-142).
Fields are exactly the instance fields assigned in the constructor, minus the
two external callables `action` and `tickAction` (see the module docstring). -/
structure Timer where
  id : String
  isBlockTimer : Bool
  intervalSeconds : Int
  maxSeconds : Option Int
  isInactivityTimer : Bool
  isActionRunning : Bool
  isActive : Bool
  lastExecutionDate : Int
  elapsedSeconds : Int
  createdDate : Int
deriving DecidableEq

/-- Embedding of `Timer.constructor` (src/timer.js lines 52-65): the argument
fields are copied, `isActionRunning := false`, `isActive := false`,
`lastExecutionDate` and `createdDate` are `new Date()` (the construction
instant `now`), and `elapsedSeconds := 4800`. -/
def Timer.create (id : String) (isBlockTimer : Bool) (intervalSeconds : Int)
    (maxSeconds : Option Int) (isInactivityTimer : Bool) (now : Int) : Timer :=
  { id := id
    isBlockTimer := isBlockTimer
    intervalSeconds := intervalSeconds
    maxSeconds := maxSeconds
    isInactivityTimer := isInactivityTimer
    isActionRunning := false
    isActive := false
    lastExecutionDate := now
    elapsedSeconds := 4800
    createdDate := now }

/-- Embedding of the getter `Timer.remainingSeconds` (src/timer.js lines
71-75): `null` when `maxSeconds` is `null`, else
`Math.max(0, maxSeconds - elapsedSeconds)`. -/
def Timer.remainingSeconds (t : Timer) : Option Int :=
  match t.maxSeconds with
  | none => none
  | some m => some (max 0 (m - t.elapsedSeconds))

/-- Embedding of the getter `Timer.isComplete` (src/timer.js lines 81-86):
`false` for `maxSeconds === null`; otherwise
`remainingSeconds >= 0 && remainingSeconds <= 4800`
(with `rangeStart = 0`, `rangeEnd = 4800` as in the source).  When
`maxSeconds` is non-null, `remainingSeconds` is non-null by definition, so
the unreachable `none` inner branch is mapped to `false`. -/
def Timer.isComplete (t : Timer) : Bool :=
  match t.maxSeconds with
  | none => false
  | some _ =>
    match t.remainingSeconds with
    | none => false
    | some r => decide (0 ≤ r ∧ r ≤ 4800)

/-- Embedding of `Timer.cancel` (src/timer.js lines 92-95):
`isActive = false; maxSeconds = elapsedSeconds`. -/
def Timer.cancel (t : Timer) : Timer :=
  { t with isActive := false, maxSeconds := some t.elapsedSeconds }

/-- Embedding of `Timer.resetElapsedSeconds` (src/timer.js lines 102-104). -/
def Timer.resetElapsedSeconds (t : Timer) : Timer :=
  { t with elapsedSeconds := 0 }

/-- Embedding of `Timer.resetLastExecutionDate` (src/timer.js lines 110-112);
`new Date()` is the instant `now` of the call. -/
def Timer.resetLastExecutionDate (t : Timer) (now : Int) : Timer :=
  { t with lastExecutionDate := now }

/-- The quantity `Math.abs(a - b) / 1000` (milliseconds to fractional
seconds), used by `Timer.executeAction` (line 129) and
`TimerManager.checkTimers` (line 191). -/
def timeDiffSec (a b : Int) : ℚ :=
  ((a - b).natAbs : ℚ) / 1000

/-- Embedding of the synchronous prefix of `Timer.executeAction`
(src/timer.js lines 119-141): return unchanged if inactive; otherwise
increment `elapsedSeconds`, run the (state-opaque) `tickAction`, and fire the
action iff `isActive && !isActionRunning && (elapsedSeconds % intervalSeconds
=== 0 || timeDiffSec >= intervalSeconds + 1)`; on firing, set the
re-entrancy guard and stamp `lastExecutionDate = now`.  The source's `let`
sequence (increment, then test the post-increment object) is flattened into
one conditional over the post-increment values; the returned `Bool` records
whether the action was fired.  The post-await continuation (lines 136-139)
is `Timer.finishAction`. -/
def Timer.executeAction (t : Timer) (now : Int) : Timer × Bool :=
  if t.isActive = false then (t, false)
  else if t.isActive = true ∧ t.isActionRunning = false ∧
      ((t.elapsedSeconds + 1) % t.intervalSeconds = 0 ∨
        timeDiffSec now t.lastExecutionDate ≥ (t.intervalSeconds : ℚ) + 1) then
    ({ t with
        elapsedSeconds := t.elapsedSeconds + 1
        isActionRunning := true
        lastExecutionDate := now }, true)
  else
    ({ t with elapsedSeconds := t.elapsedSeconds + 1 }, false)

/-- Embedding of the continuation of `Timer.executeAction` after
`await this.action(this)` resolves (src/timer.js lines 136-139):
`isActionRunning = false; if (isComplete) isActive = false`.  It only applies
to a timer whose action is in flight (`isActionRunning = true`). -/
def Timer.finishAction (t : Timer) : Timer :=
  if t.isActionRunning = false then t
  else if ({ t with isActionRunning := false } : Timer).isComplete = true then
    { t with isActionRunning := false, isActive := false }
  else
    { t with isActionRunning := false }

/-- Claim C2: for every Timer, `isComplete` is false when `maxSeconds` is
null regardless of `elapsedSeconds`; and when `maxSeconds = some m`,
`remainingSeconds` equals `max 0 (m - elapsedSeconds)` and `isComplete` is
true iff that value lies in the closed range `[0, 4800]`. -/
theorem isComplete_iff_remaining_in_range (t : Timer) :
    (t.maxSeconds = none → t.isComplete = false) ∧
    (∀ m : Int, t.maxSeconds = some m →
      t.remainingSeconds = some (max 0 (m - t.elapsedSeconds)) ∧
      (t.isComplete = true ↔
        0 ≤ max 0 (m - t.elapsedSeconds) ∧ max 0 (m - t.elapsedSeconds) ≤ 4800)) := by
  constructor
  · intro h
    simp [Timer.isComplete, h]
  · intro m h
    refine ⟨by simp [Timer.remainingSeconds, h], ?_⟩
    simp [Timer.isComplete, Timer.remainingSeconds, h]

/-- Witness for C2 at a concrete bounded timer (`maxSeconds = 100`). -/
theorem isComplete_iff_remaining_in_range_witness :
    (Timer.create "w" false 5 (some 100) false 0).remainingSeconds =
      some (max 0 (100 - (Timer.create "w" false 5 (some 100) false 0).elapsedSeconds)) ∧
    ((Timer.create "w" false 5 (some 100) false 0).isComplete = true ↔
      0 ≤ max 0 (100 - (Timer.create "w" false 5 (some 100) false 0).elapsedSeconds) ∧
      max 0 (100 - (Timer.create "w" false 5 (some 100) false 0).elapsedSeconds) ≤ 4800) :=
  (isComplete_iff_remaining_in_range (Timer.create "w" false 5 (some 100) false 0)).2 100 rfl

/-- Claim C3: every Timer is constructed with `elapsedSeconds = 4800`, and a
newly constructed Timer with non-null `maxSeconds = m ≤ 9600` is already
complete at construction time. -/
theorem create_starts_at_4800_and_completes_early (id : String) (blk : Bool)
    (itv : Int) (mx : Option Int) (inact : Bool) (now : Int) :
    (Timer.create id blk itv mx inact now).elapsedSeconds = 4800 ∧
    (∀ m : Int, mx = some m → m ≤ 9600 →
      (Timer.create id blk itv mx inact now).isComplete = true) := by
  refine ⟨rfl, ?_⟩
  rintro m rfl hm
  simp [Timer.create, Timer.isComplete, Timer.remainingSeconds]
  omega

/-- Witness for C3 at a concrete input (`maxSeconds = 9600`). -/
theorem create_starts_at_4800_and_completes_early_witness :
    (Timer.create "intro" true 10 (some 9600) false 0).elapsedSeconds = 4800 ∧
    (Timer.create "intro" true 10 (some 9600) false 0).isComplete = true :=
  ⟨(create_starts_at_4800_and_completes_early "intro" true 10 (some 9600) false 0).1,
   (create_starts_at_4800_and_completes_early "intro" true 10 (some 9600) false 0).2
     9600 rfl (by decide)⟩

/-- Claim C9: `cancel` deactivates the timer and pins `maxSeconds` to the
current `elapsedSeconds`, after which `remainingSeconds = 0` and `isComplete`
is true; a second `cancel` with no intervening mutation changes nothing. -/
theorem cancel_completes_and_is_idempotent (t : Timer) :
    t.cancel.isActive = false ∧
    t.cancel.maxSeconds = some t.elapsedSeconds ∧
    t.cancel.remainingSeconds = some 0 ∧
    t.cancel.isComplete = true ∧
    t.cancel.cancel = t.cancel := by
  refine ⟨rfl, rfl, ?_, ?_, rfl⟩
  · simp [Timer.cancel, Timer.remainingSeconds]
  · simp [Timer.cancel, Timer.isComplete, Timer.remainingSeconds]

/-- Embedding of the state of class `TimerManager` (src/timer.js lines
147-155): the timer collection, the drift-correction anchor
`lastExecutionDate`, and the poll period `checkTimerInterval` in
milliseconds.  The `timers` getter/setter pair (lines 161-172) is plain
field access. -/
structure TimerManager where
  timers : List Timer
  lastExecutionDate : Int
  checkTimerInterval : Int
deriving DecidableEq

/-- Embedding of `TimerManager.timerTolerance = 0.4` (src/timer.js line
148), exactly as the rational 2/5 of a second. -/
def timerTolerance : ℚ := 2 / 5

/-- Embedding of `TimerManager.constructor` (src/timer.js lines 150-155):
empty collection, `lastExecutionDate = new Date()` (the construction instant
`now`), `checkTimerInterval = 1000`. -/
def TimerManager.create (now : Int) : TimerManager :=
  { timers := [], lastExecutionDate := now, checkTimerInterval := 1000 }

/-- The drift guard of `TimerManager.checkTimers` (src/timer.js lines
191-194): the pass is skipped when
`timeDiffSec + timerTolerance < checkTimerInterval / 1000`. -/
def TimerManager.skips (m : TimerManager) (now : Int) : Prop :=
  timeDiffSec now m.lastExecutionDate + timerTolerance <
    (m.checkTimerInterval : ℚ) / 1000

instance (m : TimerManager) (now : Int) : Decidable (m.skips now) :=
  inferInstanceAs (Decidable (_ < _))

/-- Embedding of the static `TimerManager.checkTimers` (src/timer.js lines
187-199).  If the drift guard fires, return with nothing changed.
Otherwise stamp `lastExecutionDate = currentDate`, prune the collection to
`x.isActive || x.isInactivityTimer`, and launch `executeAction(currentDate)`
on every active retained timer (fire-and-forget `map`; only the synchronous
prefix of each action runs before `checkTimers` returns, which is what
`Timer.executeAction` embeds).  The second component collects the ids of the
timers whose action was fired, so that "no action was invoked" is
observable. -/
def TimerManager.checkTimers (m : TimerManager) (now : Int) :
    TimerManager × List String :=
  if m.skips now then (m, [])
  else
    ({ m with
        lastExecutionDate := now
        timers :=
          ((m.timers.filter (fun x => x.isActive || x.isInactivityTimer)).map
            (fun x => if x.isActive then x.executeAction now else (x, false))).map
            Prod.fst },
      (((m.timers.filter (fun x => x.isActive || x.isInactivityTimer)).map
        (fun x => if x.isActive then x.executeAction now else (x, false))).filter
        (fun r => r.2)).map (fun r => r.1.id))

/-- Embedding of `TimerManager.addTimer` (src/timer.js lines 212-224).  The
validation and duplicate-id branches return the collection unchanged
together with the `console.warn` message they log (`some msg` models a
warning having been emitted; the embedding is a total function, mirroring
that `addTimer` never throws).  Otherwise the new `Timer` is pushed. -/
def TimerManager.addTimer (m : TimerManager) (timerId : String)
    (isBlockTimer : Bool) (intervalSeconds : Int) (maxSeconds : Option Int)
    (isInactivityTimer : Bool) (now : Int) : TimerManager × Option String :=
  if decide (intervalSeconds ≤ 0) ||
      (match maxSeconds with
       | some v => decide (v ≤ 0)
       | none => false) then
    (m, some (timerId ++
      ": The timer's intervalSeconds must be greater than zero and maxSeconds must be null or greater than zero."))
  else if (m.timers.filter (fun t => t.id == timerId && t.isActive)).length = 0 then
    ({ m with
        timers := m.timers ++
          [Timer.create timerId isBlockTimer intervalSeconds maxSeconds
            isInactivityTimer now] }, none)
  else
    (m, some ("TimerId " ++ timerId ++
      " was not added to the time manager because there is another instance of the timer already present."))

/-- Embedding of `TimerManager.cancelBlockTimers` (src/timer.js lines
230-232): `filter(isBlockTimer).forEach(cancel)`, i.e. cancel in place every
block timer. -/
def TimerManager.cancelBlockTimers (m : TimerManager) : TimerManager :=
  { m with timers := m.timers.map (fun x => if x.isBlockTimer then x.cancel else x) }

/-- Embedding of `TimerManager.getTimer` (src/timer.js lines 239-242); the
`timerId` argument may be `null` (`none`), a legal not-found query. -/
def TimerManager.getTimer (m : TimerManager) (timerId : Option String) :
    Option Timer :=
  (m.timers.filter (fun x => some x.id == timerId)).head?

/-- Embedding of `TimerManager.hasTimer` (src/timer.js lines 249-251). -/
def TimerManager.hasTimer (m : TimerManager) (timerId : Option String) : Bool :=
  (m.getTimer timerId).isSome

/-- Embedding of `TimerManager.cancelTimer` (src/timer.js lines 258-260):
cancel in place every timer whose id matches. -/
def TimerManager.cancelTimer (m : TimerManager) (timerId : Option String) :
    TimerManager :=
  { m with timers := m.timers.map (fun x => if some x.id == timerId then x.cancel else x) }

/-- Embedding of `TimerManager.cancelTimers` (src/timer.js lines 267-269):
cancel in place every timer whose id is in the given list. -/
def TimerManager.cancelTimers (m : TimerManager) (timerIds : List String) :
    TimerManager :=
  { m with timers := m.timers.map (fun x => if timerIds.contains x.id then x.cancel else x) }

/-- Embedding of `TimerManager.hasInactivityTimers` (src/timer.js lines
275-277). -/
def TimerManager.hasInactivityTimers (m : TimerManager) : Bool :=
  m.timers.any (fun t => t.isInactivityTimer)

/-- Claim C1 evidence: evaluating `addTimer` at a valid input
(`intervalSeconds = 60 > 0`, `maxSeconds = null`, no duplicate id) on a fresh
manager.  The new Timer is constructed and appended, but the constructor sets
`isActive = false` (src/timer.js line 60), so the appended timer is NOT
active when `addTimer` returns — contradicting both the claim and the
source's own intent (with no activation path for ordinary timers, the
duplicate-id warning at line 222 and the whole execution machinery of
`checkTimers` are unreachable dead code). -/
theorem addTimer_appends_inactive_timer :
    ((TimerManager.create 0).addTimer "save" false 60 none false 0).1.timers =
      [Timer.create "save" false 60 none false 0] ∧
    (Timer.create "save" false 60 none false 0).isActive = false := by
  constructor
  · rfl
  · rfl

/-- Claim C8: `addTimer` with `intervalSeconds ≤ 0`, or with non-null
`maxSeconds ≤ 0`, leaves the manager unchanged and reports the violation via
a warning (and, the embedding being a total function, nothing is thrown). -/
theorem addTimer_rejects_invalid_arguments (m : TimerManager) (timerId : String)
    (blk : Bool) (intervalSeconds : Int) (maxSeconds : Option Int) (inact : Bool)
    (now : Int)
    (h : intervalSeconds ≤ 0 ∨ ∃ v : Int, maxSeconds = some v ∧ v ≤ 0) :
    (m.addTimer timerId blk intervalSeconds maxSeconds inact now).1 = m ∧
    ((m.addTimer timerId blk intervalSeconds maxSeconds inact now).2).isSome = true := by
  rcases h with h | ⟨v, rfl, hv⟩
  · simp [TimerManager.addTimer, h]
  · simp [TimerManager.addTimer, hv]

/-- Witness for C8 at a concrete invalid input (`intervalSeconds = 0`). -/
theorem addTimer_rejects_invalid_arguments_witness :
    ((TimerManager.create 0).addTimer "bad" false 0 none false 0).1 =
      TimerManager.create 0 ∧
    (((TimerManager.create 0).addTimer "bad" false 0 none false 0).2).isSome = true :=
  addTimer_rejects_invalid_arguments (TimerManager.create 0) "bad" false 0 none
    false 0 (Or.inl (by decide))

/-- Claim C6: when `checkTimers` runs after strictly less than
`checkTimerInterval/1000 − 0.4` seconds have elapsed since the manager's
`lastExecutionDate`, it returns with the manager completely unchanged and no
timer's action fired. -/
theorem checkTimers_early_tick_is_noop (m : TimerManager) (now : Int)
    (h0 : m.lastExecutionDate ≤ now)
    (h : ((now - m.lastExecutionDate : Int) : ℚ) / 1000 <
      (m.checkTimerInterval : ℚ) / 1000 - timerTolerance) :
    m.checkTimers now = (m, []) := by
  have habs : ((now - m.lastExecutionDate).natAbs : ℚ) =
      ((now - m.lastExecutionDate : Int) : ℚ) := by
    have hnn : (0 : Int) ≤ now - m.lastExecutionDate := by omega
    rw [Int.cast_natAbs, abs_of_nonneg hnn]
  have hskip : m.skips now := by
    unfold TimerManager.skips timeDiffSec
    rw [habs]
    linarith
  unfold TimerManager.checkTimers
  rw [if_pos hskip]

/-- Helper: the synchronous prefix of `executeAction` never changes
`isActive` (activation/deactivation only happens in the constructor, in
`cancel`, in the post-await continuation and in `resetInactivityTimers`). -/
theorem executeAction_fst_isActive (t : Timer) (now : Int) :
    (t.executeAction now).1.isActive = t.isActive := by
  unfold Timer.executeAction
  split_ifs <;> rfl

/-- Helper: `executeAction` never changes `isInactivityTimer`. -/
theorem executeAction_fst_isInactivityTimer (t : Timer) (now : Int) :
    (t.executeAction now).1.isInactivityTimer = t.isInactivityTimer := by
  unfold Timer.executeAction
  split_ifs <;> rfl

/-- Helper: `executeAction` on an inactive timer is a no-op that fires
nothing (src/timer.js line 120). -/
theorem executeAction_of_inactive (t : Timer) (now : Int)
    (h : t.isActive = false) : t.executeAction now = (t, false) := by
  unfold Timer.executeAction
  rw [if_pos h]

/-- Claim C5: `executeAction now` is a no-op when `isActive` is false; when
`isActive` is true it increments `elapsedSeconds` by exactly one and fires
the action iff the timer is still active (which, the tick action being
state-opaque, it is), `isActionRunning` is false, and either the incremented
counter is divisible by `intervalSeconds` or `|now − lastExecutionDate|` in
seconds is at least `intervalSeconds + 1`. -/
theorem executeAction_fires_iff (t : Timer) (now : Int) :
    (t.isActive = false → t.executeAction now = (t, false)) ∧
    (t.isActive = true →
      (t.executeAction now).1.elapsedSeconds = t.elapsedSeconds + 1 ∧
      ((t.executeAction now).2 = true ↔
        t.isActionRunning = false ∧
        ((t.elapsedSeconds + 1) % t.intervalSeconds = 0 ∨
          timeDiffSec now t.lastExecutionDate ≥ (t.intervalSeconds : ℚ) + 1))) := by
  constructor
  · intro h
    exact executeAction_of_inactive t now h
  · intro h
    unfold Timer.executeAction
    rw [if_neg (by simp [h])]
    split_ifs with hc
    · exact ⟨rfl, iff_of_true rfl ⟨hc.2.1, hc.2.2⟩⟩
    · refine ⟨rfl, iff_of_false (by simp) ?_⟩
      rintro ⟨h1, h2⟩
      exact hc ⟨h, h1, h2⟩

/-- Witness for C5 at a concrete active timer. -/
theorem executeAction_fires_iff_witness :
    (({ Timer.create "w" false 5 none false 0 with isActive := true } : Timer).executeAction
        10000).1.elapsedSeconds =
      ({ Timer.create "w" false 5 none false 0 with isActive := true } : Timer).elapsedSeconds + 1 ∧
    ((({ Timer.create "w" false 5 none false 0 with isActive := true } : Timer).executeAction
        10000).2 = true ↔
      ({ Timer.create "w" false 5 none false 0 with isActive := true } : Timer).isActionRunning = false ∧
      ((({ Timer.create "w" false 5 none false 0 with isActive := true } : Timer).elapsedSeconds + 1) %
          ({ Timer.create "w" false 5 none false 0 with isActive := true } : Timer).intervalSeconds = 0 ∨
        timeDiffSec 10000
            ({ Timer.create "w" false 5 none false 0 with isActive := true } : Timer).lastExecutionDate ≥
          (({ Timer.create "w" false 5 none false 0 with isActive := true } : Timer).intervalSeconds : ℚ) + 1)) :=
  (executeAction_fires_iff
    ({ Timer.create "w" false 5 none false 0 with isActive := true } : Timer) 10000).2 rfl

/-- Claim C7: after a non-skipped `checkTimers` pass, the collection holds
no timer that is both inactive and not an inactivity timer: the pass prunes
the collection to `isActive || isInactivityTimer`, and the synchronous prefix
of `executeAction` run on the survivors changes neither flag. -/
theorem checkTimers_prunes_inactive (m : TimerManager) (now : Int)
    (h : ¬ m.skips now) :
    ∀ t ∈ (m.checkTimers now).1.timers,
      ¬ (t.isActive = false ∧ t.isInactivityTimer = false) := by
  intro t ht
  unfold TimerManager.checkTimers at ht
  rw [if_neg h] at ht
  simp only [List.map_map, List.mem_map, List.mem_filter, Function.comp] at ht
  obtain ⟨s, ⟨hs, hflag⟩, hst⟩ := ht
  rintro ⟨hact, hinact⟩
  by_cases hsa : s.isActive = true
  · rw [if_pos hsa] at hst
    have : t.isActive = true := by
      rw [← hst, executeAction_fst_isActive, hsa]
    rw [this] at hact
    exact Bool.noConfusion hact
  · have hsa' : s.isActive = false := by
      revert hsa
      cases s.isActive <;> simp
    rw [if_neg (by simp [hsa'])] at hst
    have hti : s.isInactivityTimer = true := by
      revert hflag
      rw [hsa']
      simp
    rw [← hst] at hinact
    rw [hti] at hinact
    exact Bool.noConfusion hinact

/-- Witness for C7 at a concrete manager (one inactive inactivity timer, a
tick two seconds after the previous pass). -/
theorem checkTimers_prunes_inactive_witness :
    ¬ ((Timer.create "idle" false 60 none true 0).isActive = false ∧
       (Timer.create "idle" false 60 none true 0).isInactivityTimer = false) := by
  have hns : ¬ TimerManager.skips
      { timers := [Timer.create "idle" false 60 none true 0]
        lastExecutionDate := 0
        checkTimerInterval := 1000 } 2000 := by
    norm_num [TimerManager.skips, timeDiffSec, timerTolerance]
  refine checkTimers_prunes_inactive
    { timers := [Timer.create "idle" false 60 none true 0]
      lastExecutionDate := 0
      checkTimerInterval := 1000 } 2000 hns
    (Timer.create "idle" false 60 none true 0) ?_
  unfold TimerManager.checkTimers
  rw [if_neg hns]
  simp [Timer.create]

/-- Witness for C6 at a concrete manager and instant. -/
theorem checkTimers_early_tick_is_noop_witness :
    (TimerManager.create 0).checkTimers 500 = (TimerManager.create 0, []) :=
  checkTimers_early_tick_is_noop (TimerManager.create 0) 500 (by decide)
    (by norm_num [TimerManager.create, timerTolerance])

/-- Embedding of the process-wide state touched by
`TimerManager.resetInactivityTimers` (src/timer.js lines 283-304): the
manager itself (`player.timerManager` is the manager the method runs on) and
the shared rate-limit timestamp `player.inactivityLastClearDate`.  The other
globals it touches (`rxdLibraryIsAvailable`, `player.notification.clearAlerts`)
only select and clear an external alert channel and carry no timer state. -/
structure PlayerState where
  timerManager : TimerManager
  inactivityLastClearDate : Int
deriving DecidableEq

/-- Embedding of `TimerManager.resetInactivityTimers` (src/timer.js lines
283-304), fuelled because line 293 re-enters the method
(`player.timerManager.resetInactivityTimers()`): return unchanged when
`Math.abs(currentDate - inactivityLastClearDate) < 10_000` milliseconds;
otherwise stamp `inactivityLastClearDate = currentDate`, perform the
re-entrant call (which, the timestamp having just been stamped to `now`,
hits the rate-limit guard at depth one and returns at once), clear the
external alert channel (no timer state), and for every inactivity timer
reset its elapsed counter, reset its last-execution timestamp and
reactivate it.  Fuel 2 therefore reproduces the source exactly. -/
def resetInactivityTimersAux : Nat → PlayerState → Int → PlayerState
  | 0, p, _ => p
  | Nat.succ fuel, p, now =>
    if (now - p.inactivityLastClearDate).natAbs < 10000 then p
    else
      let p1 : PlayerState := { p with inactivityLastClearDate := now }
      let p2 : PlayerState := resetInactivityTimersAux fuel p1 now
      { p2 with
          timerManager := { p2.timerManager with
            timers := p2.timerManager.timers.map (fun t =>
              if t.isInactivityTimer then
                { (t.resetElapsedSeconds.resetLastExecutionDate now) with
                    isActive := true }
              else t) } }

/-- Entry point of the embedding of `resetInactivityTimers`; see
`resetInactivityTimersAux` for the fuel. -/
def PlayerState.resetInactivityTimers (p : PlayerState) (now : Int) : PlayerState :=
  resetInactivityTimersAux 2 p now

/-- Claim C10: `resetInactivityTimers` is rate-limited by the last-clear
timestamp.  Less than ten seconds after the recorded last clear it changes
nothing; ten or more seconds after, it stamps the last-clear timestamp and,
for every inactivity timer, zeroes `elapsedSeconds`, sets
`lastExecutionDate` to the current time and reactivates it, leaving
non-inactivity timers (and the manager's other fields) unchanged. -/
theorem resetInactivityTimers_rate_limited (p : PlayerState) (now : Int)
    (h0 : p.inactivityLastClearDate ≤ now) :
    (now - p.inactivityLastClearDate < 10000 →
      p.resetInactivityTimers now = p) ∧
    (10000 ≤ now - p.inactivityLastClearDate →
      (p.resetInactivityTimers now).inactivityLastClearDate = now ∧
      (p.resetInactivityTimers now).timerManager.timers =
        p.timerManager.timers.map (fun t =>
          if t.isInactivityTimer then
            { t with elapsedSeconds := 0, lastExecutionDate := now, isActive := true }
          else t) ∧
      (p.resetInactivityTimers now).timerManager.lastExecutionDate =
        p.timerManager.lastExecutionDate ∧
      (p.resetInactivityTimers now).timerManager.checkTimerInterval =
        p.timerManager.checkTimerInterval) := by
  constructor
  · intro h1
    unfold PlayerState.resetInactivityTimers resetInactivityTimersAux
    rw [if_pos (by omega)]
  · intro h2
    have hinner : resetInactivityTimersAux 1
        { p with inactivityLastClearDate := now } now =
        { p with inactivityLastClearDate := now } := by
      unfold resetInactivityTimersAux
      rw [if_pos (by simp)]
    unfold PlayerState.resetInactivityTimers resetInactivityTimersAux
    rw [if_neg (by omega)]
    simp [hinner, Timer.resetElapsedSeconds, Timer.resetLastExecutionDate]

/-- Witness for C10 at a concrete state (one inactivity timer, last clear at
time 0): a call at 5 seconds is a no-op, a call at 20 seconds resets. -/
theorem resetInactivityTimers_rate_limited_witness :
    (PlayerState.resetInactivityTimers
      { timerManager :=
          { timers := [Timer.create "idle" false 60 none true 0]
            lastExecutionDate := 0
            checkTimerInterval := 1000 }
        inactivityLastClearDate := 0 } 5000 =
      { timerManager :=
          { timers := [Timer.create "idle" false 60 none true 0]
            lastExecutionDate := 0
            checkTimerInterval := 1000 }
        inactivityLastClearDate := 0 }) ∧
    ((PlayerState.resetInactivityTimers
      { timerManager :=
          { timers := [Timer.create "idle" false 60 none true 0]
            lastExecutionDate := 0
            checkTimerInterval := 1000 }
        inactivityLastClearDate := 0 } 20000).inactivityLastClearDate = 20000 ∧
     (PlayerState.resetInactivityTimers
      { timerManager :=
          { timers := [Timer.create "idle" false 60 none true 0]
            lastExecutionDate := 0
            checkTimerInterval := 1000 }
        inactivityLastClearDate := 0 } 20000).timerManager.timers =
       [Timer.create "idle" false 60 none true 0].map (fun t =>
         if t.isInactivityTimer then
           { t with elapsedSeconds := 0, lastExecutionDate := 20000, isActive := true }
         else t)) :=
  ⟨(resetInactivityTimers_rate_limited
      { timerManager :=
          { timers := [Timer.create "idle" false 60 none true 0]
            lastExecutionDate := 0
            checkTimerInterval := 1000 }
        inactivityLastClearDate := 0 } 5000 (by decide)).1 (by decide),
   ((resetInactivityTimers_rate_limited
      { timerManager :=
          { timers := [Timer.create "idle" false 60 none true 0]
            lastExecutionDate := 0
            checkTimerInterval := 1000 }
        inactivityLastClearDate := 0 } 20000 (by decide)).2 (by decide)).1,
   ((resetInactivityTimers_rate_limited
      { timerManager :=
          { timers := [Timer.create "idle" false 60 none true 0]
            lastExecutionDate := 0
            checkTimerInterval := 1000 }
        inactivityLastClearDate := 0 } 20000 (by decide)).2 (by decide)).2.1⟩

/-- In-place mutation of the i-th timer of the collection (JS object
mutation through an array element), used to model a single timer's
`executeAction`, its post-await continuation, and `cancel` as operations on
the manager's collection. -/
def modifyAt (f : Timer → Timer) : List Timer → Nat → List Timer
  | [], _ => []
  | t :: ts, 0 => f t :: ts
  | t :: ts, Nat.succ n => t :: modifyAt f ts n

/-- The public operations on the manager/player state (src/timer.js):
`addTimer`, a `checkTimers` pass, a direct `executeAction` on one timer, the
resolution of one timer's in-flight action (the part of `executeAction`
after `await`), `cancel` on one timer, `cancelTimer`, `cancelTimers`,
`cancelBlockTimers`, and `resetInactivityTimers`. -/
inductive Op where
  | addTimer (timerId : String) (isBlockTimer : Bool) (intervalSeconds : Int)
      (maxSeconds : Option Int) (isInactivityTimer : Bool) (now : Int)
  | checkTimers (now : Int)
  | executeAction (i : Nat) (now : Int)
  | finishAction (i : Nat)
  | cancelAt (i : Nat)
  | cancelTimer (timerId : Option String)
  | cancelTimers (timerIds : List String)
  | cancelBlockTimers
  | resetInactivityTimers (now : Int)

/-- One public operation applied to the player state. -/
def PlayerState.applyOp (p : PlayerState) : Op → PlayerState
  | .addTimer id blk itv mx inact now =>
    { p with timerManager := (p.timerManager.addTimer id blk itv mx inact now).1 }
  | .checkTimers now =>
    { p with timerManager := (p.timerManager.checkTimers now).1 }
  | .executeAction i now =>
    { p with timerManager := { p.timerManager with
        timers := modifyAt (fun t => (t.executeAction now).1) p.timerManager.timers i } }
  | .finishAction i =>
    { p with timerManager := { p.timerManager with
        timers := modifyAt Timer.finishAction p.timerManager.timers i } }
  | .cancelAt i =>
    { p with timerManager := { p.timerManager with
        timers := modifyAt Timer.cancel p.timerManager.timers i } }
  | .cancelTimer id => { p with timerManager := p.timerManager.cancelTimer id }
  | .cancelTimers ids => { p with timerManager := p.timerManager.cancelTimers ids }
  | .cancelBlockTimers => { p with timerManager := p.timerManager.cancelBlockTimers }
  | .resetInactivityTimers now => p.resetInactivityTimers now

/-- A sequence of public operations applied in order. -/
def PlayerState.run (p : PlayerState) (ops : List Op) : PlayerState :=
  ops.foldl PlayerState.applyOp p

/-- The state at startup: a freshly constructed manager with no timers and
the process-wide last-clear timestamp. -/
def initialPlayer (now : Int) : PlayerState :=
  { timerManager := TimerManager.create now, inactivityLastClearDate := now }

/-- Invariant of C4: every timer in the collection that is not an
inactivity timer is inactive. -/
def inactiveUnlessInactivity (p : PlayerState) : Prop :=
  ∀ t ∈ p.timerManager.timers, t.isInactivityTimer = false → t.isActive = false

/-- Helper: an element of `modifyAt f l i` is an element of `l` or the image
under `f` of one. -/
theorem mem_modifyAt {f : Timer → Timer} {l : List Timer} {i : Nat} {t : Timer}
    (h : t ∈ modifyAt f l i) : ∃ s ∈ l, t = s ∨ t = f s := by
  induction l generalizing i with
  | nil => simp [modifyAt] at h
  | cons a as ih =>
    cases i with
    | zero =>
      simp only [modifyAt, List.mem_cons] at h
      rcases h with h | h
      · exact ⟨a, List.mem_cons_self a as, Or.inr h⟩
      · exact ⟨t, List.mem_cons_of_mem a h, Or.inl rfl⟩
    | succ n =>
      simp only [modifyAt, List.mem_cons] at h
      rcases h with h | h
      · exact ⟨a, List.mem_cons_self a as, Or.inl h⟩
      · obtain ⟨s, hs, hts⟩ := ih h
        exact ⟨s, List.mem_cons_of_mem a hs, hts⟩

/-- Helper: an element of a cancel-if-predicate pass over the collection is
an element of the original collection or the cancellation of one. -/
theorem mem_map_cancelIf {pred : Timer → Bool} {l : List Timer} {t : Timer}
    (h : t ∈ l.map (fun x => if pred x then x.cancel else x)) :
    ∃ s ∈ l, t = s ∨ t = s.cancel := by
  obtain ⟨s, hs, hst⟩ := List.mem_map.mp h
  by_cases hp : pred s = true
  · rw [if_pos hp] at hst
    exact ⟨s, hs, Or.inr hst.symm⟩
  · rw [if_neg hp] at hst
    exact ⟨s, hs, Or.inl hst.symm⟩

/-- Helper: the post-await continuation never changes `isInactivityTimer`. -/
theorem finishAction_isInactivityTimer (t : Timer) :
    t.finishAction.isInactivityTimer = t.isInactivityTimer := by
  unfold Timer.finishAction
  split_ifs <;> rfl

/-- Helper: the post-await continuation never activates a timer. -/
theorem finishAction_active (t : Timer) (h : t.finishAction.isActive = true) :
    t.isActive = true := by
  unfold Timer.finishAction at h
  split_ifs at h <;> exact h

/-- Helper: `resetInactivityTimersAux` preserves the C4 invariant at every
fuel: it only activates timers with `isInactivityTimer = true`. -/
theorem resetAux_preserves (fuel : Nat) (p : PlayerState) (now : Int)
    (h : inactiveUnlessInactivity p) :
    inactiveUnlessInactivity (resetInactivityTimersAux fuel p now) := by
  induction fuel generalizing p with
  | zero => exact h
  | succ n ih =>
    unfold resetInactivityTimersAux
    split_ifs with hg
    · exact h
    · intro t ht hni
      dsimp only at ht
      obtain ⟨s, hsmem, hst⟩ := List.mem_map.mp ht
      have hp1 : inactiveUnlessInactivity
          { p with inactivityLastClearDate := now } := h
      have h2 := ih { p with inactivityLastClearDate := now } hp1
      by_cases hsi : s.isInactivityTimer = true
      · rw [if_pos hsi] at hst
        have hni' : s.isInactivityTimer = false := by
          rw [← hst] at hni
          exact hni
        rw [hni'] at hsi
        exact Bool.noConfusion hsi
      · rw [if_neg hsi] at hst
        rw [← hst] at hni ⊢
        exact h2 s hsmem hni

/-- Helper: every public operation preserves the C4 invariant — no
operation but `resetInactivityTimers` ever sets `isActive := true`, and
`resetInactivityTimers` does so only for inactivity timers. -/
theorem applyOp_preserves (p : PlayerState) (op : Op)
    (h : inactiveUnlessInactivity p) :
    inactiveUnlessInactivity (p.applyOp op) := by
  cases op with
  | addTimer id blk itv mx inact now =>
    intro t ht hni
    simp only [PlayerState.applyOp] at ht
    unfold TimerManager.addTimer at ht
    split_ifs at ht <;> dsimp only at ht
    · exact h t ht hni
    · rcases List.mem_append.mp ht with hm | hm
      · exact h t hm hni
      · rw [List.mem_singleton.mp hm]
        rfl
    · exact h t ht hni
  | checkTimers now =>
    intro t ht hni
    simp only [PlayerState.applyOp] at ht
    unfold TimerManager.checkTimers at ht
    split_ifs at ht with hs <;> dsimp only at ht
    · exact h t ht hni
    · simp only [List.map_map, List.mem_map, List.mem_filter, Function.comp] at ht
      obtain ⟨s, ⟨hsmem, hflag⟩, hst⟩ := ht
      by_cases hsa : s.isActive = true
      · rw [if_pos hsa] at hst
        have hII : t.isInactivityTimer = s.isInactivityTimer := by
          rw [← hst, executeAction_fst_isInactivityTimer]
        have hcon := h s hsmem (by rw [← hII]; exact hni)
        rw [hsa] at hcon
        exact Bool.noConfusion hcon
      · have hsa' : s.isActive = false := by
          revert hsa
          cases s.isActive <;> simp
        rw [if_neg (by simp [hsa'])] at hst
        rw [← hst]
        exact hsa'
  | executeAction i now =>
    intro t ht hni
    simp only [PlayerState.applyOp] at ht
    obtain ⟨s, hsmem, hts⟩ := mem_modifyAt ht
    rcases hts with rfl | rfl
    · exact h t hsmem hni
    · rw [executeAction_fst_isInactivityTimer] at hni
      rw [executeAction_fst_isActive]
      exact h s hsmem hni
  | finishAction i =>
    intro t ht hni
    simp only [PlayerState.applyOp] at ht
    obtain ⟨s, hsmem, hts⟩ := mem_modifyAt ht
    rcases hts with rfl | rfl
    · exact h t hsmem hni
    · rw [finishAction_isInactivityTimer] at hni
      cases hb : s.finishAction.isActive with
      | false => rfl
      | true =>
        have hs1 := finishAction_active s hb
        have hs2 := h s hsmem hni
        rw [hs1] at hs2
        exact Bool.noConfusion hs2
  | cancelAt i =>
    intro t ht hni
    simp only [PlayerState.applyOp] at ht
    obtain ⟨s, hsmem, hts⟩ := mem_modifyAt ht
    rcases hts with rfl | rfl
    · exact h t hsmem hni
    · rfl
  | cancelTimer id =>
    intro t ht hni
    simp only [PlayerState.applyOp] at ht
    unfold TimerManager.cancelTimer at ht
    obtain ⟨s, hsmem, hts⟩ := mem_map_cancelIf ht
    rcases hts with rfl | rfl
    · exact h t hsmem hni
    · rfl
  | cancelTimers ids =>
    intro t ht hni
    simp only [PlayerState.applyOp] at ht
    unfold TimerManager.cancelTimers at ht
    obtain ⟨s, hsmem, hts⟩ := mem_map_cancelIf ht
    rcases hts with rfl | rfl
    · exact h t hsmem hni
    · rfl
  | cancelBlockTimers =>
    intro t ht hni
    simp only [PlayerState.applyOp] at ht
    unfold TimerManager.cancelBlockTimers at ht
    obtain ⟨s, hsmem, hts⟩ := mem_map_cancelIf ht
    rcases hts with rfl | rfl
    · exact h t hsmem hni
    · rfl
  | resetInactivityTimers now =>
    exact resetAux_preserves 2 p now h

/-- Helper: the invariant holds along any operation sequence. -/
theorem run_preserves (ops : List Op) (p : PlayerState)
    (h : inactiveUnlessInactivity p) :
    inactiveUnlessInactivity (p.run ops) := by
  induction ops generalizing p with
  | nil => exact h
  | cons op rest ih => exact ih (p.applyOp op) (applyOp_preserves p op h)

/-- Claim C4: in every state reachable from startup by public operations,
a timer with `isInactivityTimer = false` is never active — the only
operation that sets `isActive := true` is `resetInactivityTimers` and it
touches only inactivity timers, while the constructor starts timers
inactive — and hence `executeAction` on such a timer never fires its
action. -/
theorem reachable_nonInactivity_never_active (now0 : Int) (ops : List Op) :
    ∀ t ∈ ((initialPlayer now0).run ops).timerManager.timers,
      t.isInactivityTimer = false →
        t.isActive = false ∧ ∀ now : Int, t.executeAction now = (t, false) := by
  intro t ht hni
  have hinit : inactiveUnlessInactivity (initialPlayer now0) := by
    intro s hs
    exact absurd hs (by simp [initialPlayer, TimerManager.create])
  have hact := run_preserves ops (initialPlayer now0) hinit t ht hni
  exact ⟨hact, fun now => executeAction_of_inactive t now hact⟩

/-- Witness for C4: after the single operation `addTimer("save", ..., 60,
null, false)` from startup, the added timer is in the collection, is not an
inactivity timer, is inactive, and its evaluation fires nothing. -/
theorem reachable_nonInactivity_never_active_witness :
    (Timer.create "save" false 60 none false 0).isActive = false ∧
    (Timer.create "save" false 60 none false 0).executeAction 12345 =
      (Timer.create "save" false 60 none false 0, false) :=
  ⟨(reachable_nonInactivity_never_active 0
      [Op.addTimer "save" false 60 none false 0]
      (Timer.create "save" false 60 none false 0) (by decide) rfl).1,
   (reachable_nonInactivity_never_active 0
      [Op.addTimer "save" false 60 none false 0]
      (Timer.create "save" false 60 none false 0) (by decide) rfl).2 12345⟩

end NewTimer
